import Mathlib

/-!
Formal model of the gradio JavaScript client (`client/js/src/client.ts`):
the submission protocol engine, the blob-extraction walk, the schema
normalizer, the listener registry and the space wake-poll loop, together
with theorems settling the specified properties.

Machine data is modelled shallowly: JSON values become an inductive tree,
JavaScript `undefined`/`null` field absence becomes `Option`, and the
message-driven socket handler becomes a pure step function from inbound
frames to emitted events, outbound replies and a close flag.
-/

namespace GradioClient

/-- Fixed message used by `queue_full` frames (client.ts:50). -/
def QUEUE_FULL_MSG : String := "This application is too busy. Keep trying!"

/-- Fixed message used for transport failures (client.ts:51). -/
def BROKEN_CONNECTION_MSG : String := "Connection errored out."

/-! ## Payload trees

`walk_and_store_blobs` (client.ts:716-791) dispatches on the runtime shape
of a payload node: JavaScript array, Node `Buffer`, `Blob`, plain object,
or scalar.  We model that closed dispatch as an inductive tree.  Binary
leaves carry their bytes as `List Nat`. -/

inductive PValue where
  | arr : List PValue → PValue
  | buffer : List Nat → PValue
  | blob : List Nat → PValue
  | obj : List (String × PValue) → PValue
  | str : String → PValue
  | num : Int → PValue
  | boolean : Bool → PValue
  | null : PValue

/-- Path component used in blob references: array index or object key. -/
inductive Key where
  | idx : Nat → Key
  | field : String → Key
deriving DecidableEq

/-- A blob reference as produced by the walk: the recorded path, an
uploadable blob or an inlined base64 string (exactly one populated, the
other absent/falsy), and the inherited component type. -/
structure BlobRef where
  path : List Key
  blob : Option (List Nat)
  data : Option String
  type : Option String
deriving DecidableEq

/-- Base64 alphabet used by `Buffer.toString("base64")`. -/
def base64Chars : List Char :=
  "ABCDEFGHIJKLMNOPQRSTUVWXYZabcdefghijklmnopqrstuvwxyz0123456789+/".toList

def base64Char (n : Nat) : Char := base64Chars.getD n 'A'

/-- Standard base64 of a byte list, modelling `Buffer.toString("base64")`
(the Node branch of the Image inlining; the browser branch produces a data
URI via a `FileReader`, which no claim depends on). -/
def base64Encode : List Nat → String
  | [] => ""
  | [b1] =>
    let n := b1 % 256 * 65536
    String.mk [base64Char (n / 262144), base64Char (n / 4096 % 64)] ++ "=="
  | [b1, b2] =>
    let n := b1 % 256 * 65536 + b2 % 256 * 256
    String.mk [base64Char (n / 262144), base64Char (n / 4096 % 64),
      base64Char (n / 64 % 64)] ++ "="
  | b1 :: b2 :: b3 :: rest =>
    let n := b1 % 256 * 65536 + b2 % 256 * 256 + b3 % 256
    String.mk [base64Char (n / 262144), base64Char (n / 4096 % 64),
      base64Char (n / 64 % 64), base64Char (n % 64)] ++ base64Encode rest

/-- The component hint taken from the endpoint schema for a top-level
argument position: `api_info?.parameters[i]?.component || undefined`
(client.ts:733).  The schema is modelled as the list of (possibly absent)
component names of its parameters; `|| undefined` turns an empty component
string into `undefined`. -/
def param_component (api_info : List (Option String)) (i : Nat) : Option String :=
  match api_info[i]? with
  | some (some c) => if c = "" then none else some c
  | _ => none

mutual

/-- `walk_and_store_blobs` (client.ts:716-791).  Arrays recurse with the
per-position component hint when at the root; Node buffers and blobs emit
one reference each (base64-inlined when the inherited type is "Image",
otherwise flagged for upload); plain objects recurse per key with the type
hint reset; scalars emit nothing. -/
def walk_and_store_blobs (param : PValue) (type : Option String) (path : List Key)
    (root : Bool) (api_info : List (Option String)) : List BlobRef :=
  match param with
  | .arr xs => walk_list xs 0 type path root api_info
  | .buffer bs =>
    let is_image := type == some "Image"
    [{ path := path,
       blob := if is_image then none else some bs,
       data := if is_image then some (base64Encode bs) else none,
       type := type }]
  | .blob bs =>
    if type == some "Image" then
      [{ path := path, blob := none, data := some (base64Encode bs), type := type }]
    else
      [{ path := path, blob := some bs, data := none, type := type }]
  | .obj fields => walk_fields fields path api_info
  | .str _ => []
  | .num _ => []
  | .boolean _ => []
  | .null => []

/-- The array branch of the walk (client.ts:723-743): element `i` gets path
`path ++ [i]`, component hint `api_info?.parameters[i]?.component` when at
the root (otherwise the inherited `type`), and `root := false`. -/
def walk_list (xs : List PValue) (i : Nat) (type : Option String) (path : List Key)
    (root : Bool) (api_info : List (Option String)) : List BlobRef :=
  match xs with
  | [] => []
  | v :: rest =>
    walk_and_store_blobs v (if root then param_component api_info i else type)
      (path ++ [Key.idx i]) false api_info
    ++ walk_list rest (i + 1) type path root api_info

/-- The object branch of the walk (client.ts:770-787): each own key
recurses with `type := undefined`, path extended by the key. -/
def walk_fields (fields : List (String × PValue)) (path : List Key)
    (api_info : List (Option String)) : List BlobRef :=
  match fields with
  | [] => []
  | (k, v) :: rest =>
    walk_and_store_blobs v none (path ++ [Key.field k]) false api_info
    ++ walk_fields rest path api_info

end

mutual

/-- A payload tree with no binary leaf (no Buffer, no Blob). -/
def no_binary : PValue → Bool
  | .arr xs => no_binary_list xs
  | .buffer _ => false
  | .blob _ => false
  | .obj fs => no_binary_fields fs
  | .str _ => true
  | .num _ => true
  | .boolean _ => true
  | .null => true

def no_binary_list : List PValue → Bool
  | [] => true
  | v :: rest => no_binary v && no_binary_list rest

def no_binary_fields : List (String × PValue) → Bool
  | [] => true
  | (_, v) :: rest => no_binary v && no_binary_fields rest

end

mutual

/-- Number of binary leaves (Buffers and Blobs) in a payload tree. -/
def count_binary : PValue → Nat
  | .arr xs => count_binary_list xs
  | .buffer _ => 1
  | .blob _ => 1
  | .obj fs => count_binary_fields fs
  | .str _ => 0
  | .num _ => 0
  | .boolean _ => 0
  | .null => 0

def count_binary_list : List PValue → Nat
  | [] => 0
  | v :: rest => count_binary v + count_binary_list rest

def count_binary_fields : List (String × PValue) → Nat
  | [] => 0
  | (_, v) :: rest => count_binary v + count_binary_fields rest

end

/-! ## Indexing, reinsertion and `handle_blob` -/

/-- First binding for a key in an object's field list, modelling property
lookup `param[key]` on a plain object (JavaScript objects cannot carry
duplicate keys, so well-formed trees have distinct keys per object). -/
def assoc_find (fs : List (String × PValue)) (k : String) : Option PValue :=
  match fs with
  | [] => none
  | (k1, v) :: rest => if k1 == k then some v else assoc_find rest k

/-- Replace the first binding for `k` (JavaScript assignment to an existing
property keeps its position), appending when absent. -/
def assoc_set (fs : List (String × PValue)) (k : String) (v : PValue) :
    List (String × PValue) :=
  match fs with
  | [] => [(k, v)]
  | (k1, v1) :: rest =>
    if k1 == k then (k1, v) :: rest else (k1, v1) :: assoc_set rest k v

/-- Successive indexing of a payload tree by a path of keys, the
`object[stack.shift()]` chain of `update_object` (client.ts:708-714) read
as a pure lookup. -/
def lookup : PValue → List Key → Option PValue
  | p, [] => some p
  | .arr xs, .idx i :: rest =>
    match xs[i]? with
    | some v => lookup v rest
    | none => none
  | .obj fs, .field s :: rest =>
    match assoc_find fs s with
    | some v => lookup v rest
    | none => none
  | _, _ => none

/-- One-step property read `object[key]`. -/
def jget : PValue → Key → Option PValue
  | .arr xs, .idx i => xs[i]?
  | .obj fs, .field s => assoc_find fs s
  | _, _ => none

/-- One-step property write `object[key] = v`.  Writes to a missing array
index or a shape/key mismatch leave the tree unchanged; such writes are
unreachable for paths recorded by the walk over the same tree. -/
def jset : PValue → Key → PValue → PValue
  | .arr xs, .idx i, v => .arr (xs.set i v)
  | .obj fs, .field s, v => .obj (assoc_set fs s v)
  | p, _, _ => p

/-- `update_object(object, newValue, stack)` (client.ts:708-714): walk the
first `n - 1` path segments, then assign at the last.  The empty-path and
missing-intermediate cases (where JavaScript would set a property named
"undefined", resp. throw) are unreachable for walk-recorded paths and leave
the tree unchanged. -/
def update_object (object : PValue) (newValue : PValue) (stack : List Key) : PValue :=
  match stack with
  | [] => object
  | [k] => jset object k newValue
  | k :: rest =>
    match jget object k with
    | some child => jset object k (update_object child newValue rest)
    | none => object

/-- Truthiness of the optional base64 string in the reinsertion loop
(`if (base64)`, client.ts:687): absent and empty strings are falsy. -/
def truthy_str : Option String → Bool
  | some s => !(s == "")
  | none => false

/-- The file-handle object reinserted for an uploaded (non-Gallery) blob
(client.ts:692-698). -/
def file_handle (file_url : String) : PValue :=
  .obj [("is_file", .boolean true), ("name", .str file_url), ("data", .null)]

/-- A blob reference after the upload phase of `handle_blob`
(client.ts:675-684): uploaded references carry the returned file handle,
base64 references carry their inline data. -/
structure Resolved where
  path : List Key
  file_url : Option String
  base64 : Option String
  type : Option String

/-- `handle_blob` (client.ts:659-706): walk the argument array (the walk is
called with `type = undefined`, `path = []`, `root = true`), upload every
reference that carries a blob (the upload endpoint is modelled as a
function from bytes to the returned file handle), then reinsert along each
recorded path: base64 data as-is, the raw upload response for
Gallery-typed references, and a file-handle object otherwise. -/
def handle_blob (upload : List Nat → String) (data : List PValue)
    (api_info : List (Option String)) : PValue :=
  let blob_refs := walk_and_store_blobs (.arr data) none [] true api_info
  let resolved := blob_refs.map (fun r =>
    match r.blob with
    | some bs =>
      { path := r.path, file_url := some (upload bs), base64 := none,
        type := r.type : Resolved }
    | none =>
      { path := r.path, file_url := none, base64 := r.data, type := r.type })
  resolved.foldl (fun acc r =>
    if truthy_str r.base64 then
      update_object acc (.str (r.base64.getD "")) r.path
    else if r.type == some "Gallery" then
      update_object acc (match r.file_url with
        | some u => .str u
        | none => .null) r.path
    else
      match r.file_url with
      | some u => update_object acc (file_handle u) r.path
      | none => acc) (.arr data)

/-- Pairwise-distinct key list. -/
def keys_distinct : List String → Bool
  | [] => true
  | k :: rest => !(rest.contains k) && keys_distinct rest

mutual

/-- Well-formedness of a payload tree as a JavaScript value: every object
node carries pairwise-distinct keys. -/
def pvalue_wf : PValue → Bool
  | .arr xs => pvalue_wf_list xs
  | .obj fs => keys_distinct (fs.map Prod.fst) && pvalue_wf_fields fs
  | _ => true

def pvalue_wf_list : List PValue → Bool
  | [] => true
  | v :: rest => pvalue_wf v && pvalue_wf_list rest

def pvalue_wf_fields : List (String × PValue) → Bool
  | [] => true
  | (_, v) :: rest => pvalue_wf v && pvalue_wf_fields rest

end

/-- A reference's recorded content agrees with a binary leaf: either the
leaf's bytes flagged for upload, or their base64 inlining. -/
def ref_matches (r : BlobRef) (v : PValue) : Bool :=
  match v with
  | .buffer bs =>
    (r.blob == some bs && r.data == none) ||
      (r.blob == none && r.data == some (base64Encode bs))
  | .blob bs =>
    (r.blob == some bs && r.data == none) ||
      (r.blob == none && r.data == some (base64Encode bs))
  | _ => false

/-- Re-indexing the original tree by a reference's recorded path yields a
binary leaf whose content the reference carries. -/
def path_ok (p : PValue) (r : BlobRef) : Bool :=
  match lookup p r.path with
  | some v => ref_matches r v
  | none => false

/-! ## Protocol frames and `handle_message` -/

/-- The `output` object of a protocol frame: server error message, result
payload (opaque to the client, modelled as an optional token) and reported
average duration. -/
structure FrameOutput where
  error : Option String
  data : Option String
  average_duration : Option Int
deriving DecidableEq

/-- An inbound WebSocket frame as read by `handle_message`
(client.ts:926-1006): a `msg` tag plus the fields the handler may access.
Absent JSON fields are `none`. -/
structure Frame where
  msg : String
  success : Bool
  output : FrameOutput
  queue_size : Option Int
  rank : Option Int
  rank_eta : Option Int
  progress_data : Option Int
  average_duration : Option Int
deriving DecidableEq

/-- A status object produced by `handle_message`. -/
structure StatusMsg where
  queue : Bool
  status : String
  message : Option String
  size : Option Int
  position : Option Int
  eta : Option Int
  progress : Option Int
deriving DecidableEq

/-- The discriminant of a `handle_message` result (client.ts:930). -/
inductive HMType where
  | hash
  | data
  | update
  | complete
  | generating
  | no_match
deriving DecidableEq

/-- Result of `handle_message`: discriminant, optional data payload and
optional status object. -/
structure HMResult where
  type : HMType
  data : Option FrameOutput
  status : Option StatusMsg
deriving DecidableEq

/-- `handle_message(data, last_status)` (client.ts:926-1006): pure
translation of one inbound frame, given the last recorded lifecycle status
for the submission's `fn_index`, into an instruction for the socket
handler.  The unrecognized-tag fallthrough returns type `none`
(`no_match` here) with an error status object that the caller never
fires. -/
def handle_message (data : Frame) (last_status : Option String) : HMResult :=
  let queue := true
  if data.msg == "send_data" then
    { type := .data, data := none, status := none }
  else if data.msg == "send_hash" then
    { type := .hash, data := none, status := none }
  else if data.msg == "queue_full" then
    { type := .update, data := none,
      status := some
        { queue := queue, message := some QUEUE_FULL_MSG,
          status := "error", size := none, position := none, eta := none,
          progress := none } }
  else if data.msg == "estimation" then
    { type := .update, data := none,
      status := some
        { queue := queue, message := none,
          status := last_status.getD "pending",
          size := data.queue_size, position := data.rank, eta := data.rank_eta,
          progress := none } }
  else if data.msg == "progress" then
    { type := .update, data := none,
      status := some
        { queue := queue, message := none, status := "pending",
          size := none, position := none, eta := none,
          progress := data.progress_data } }
  else if data.msg == "process_generating" then
    { type := .generating,
      data := if data.success then some data.output else none,
      status := some
        { queue := queue,
          message := if !data.success then data.output.error else none,
          status := if data.success then "generating" else "error",
          size := none, position := none, eta := data.average_duration,
          progress := data.progress_data } }
  else if data.msg == "process_completed" then
    { type := .complete,
      data := if data.success then some data.output else none,
      status := some
        { queue := queue,
          message := if !data.success then data.output.error else none,
          status := if data.success then "complete" else "error",
          size := none, position := none, eta := data.output.average_duration,
          progress := data.progress_data } }
  else if data.msg == "process_starts" then
    { type := .update, data := none,
      status := some
        { queue := queue, message := none, status := "pending",
          size := data.rank, position := some 0, eta := none,
          progress := none } }
  else
    { type := .no_match, data := none,
      status := some
        { queue := queue, message := none, status := "error",
          size := none, position := none, eta := none, progress := none } }

/-! ## The socket message handler as a step function -/

/-- An event delivered to listeners via `fire_event` (client.ts:442-446):
the union of the fields the various `fire_event` call sites populate.
Fields a call site does not mention are `none`. -/
structure Event where
  type : String
  endpoint : String
  fn_index : Nat
  status : Option String
  queue : Option Bool
  message : Option String
  eta : Option Int
  size : Option Int
  position : Option Int
  progress : Option Int
  data : Option String
deriving DecidableEq

/-- The status event fired by spreading a `handle_message` status object
(client.ts:394-401, 410-418, 420-428). -/
def status_event (ep : String) (fi : Nat) (s : StatusMsg) : Event :=
  { type := "status", endpoint := ep, fn_index := fi, status := some s.status,
    queue := some s.queue, message := s.message, eta := s.eta, size := s.size,
    position := s.position, progress := s.progress, data := none }

/-- The data event fired for a frame's output payload (client.ts:430-437). -/
def data_event (ep : String) (fi : Nat) (d : Option String) : Event :=
  { type := "data", endpoint := ep, fn_index := fi, status := none,
    queue := none, message := none, eta := none, size := none,
    position := none, progress := none, data := d }

/-- A reply sent back on the socket. -/
inductive Send where
  | hash_reply (fn_index : Nat)
  | data_reply
deriving DecidableEq

/-- Observable outcome of processing one inbound frame: events fired to
listeners, replies sent on the socket, and whether the socket was
closed. -/
structure StepOut where
  events : List Event
  sends : List Send
  closed : Bool
deriving DecidableEq

/-- `websocket.onmessage` (client.ts:387-438) for one frame: dispatch on
the `handle_message` result.  `update` fires the status and closes on
error; `hash` replies and returns early; `data` replies with the payload;
`complete` fires the status and closes; `generating` fires the status;
afterwards (except for the early `hash` return) a truthy data payload
additionally fires a data event. -/
def onmessage_step (fr : Frame) (last_status : Option String) (ep : String)
    (fi : Nat) : StepOut :=
  let r := handle_message fr last_status
  let base : StepOut :=
    match r.type, r.status with
    | .update, some s =>
      { events := [status_event ep fi s], sends := [],
        closed := s.status == "error" }
    | .update, none => { events := [], sends := [], closed := false }
    | .hash, _ => { events := [], sends := [.hash_reply fi], closed := false }
    | .data, _ => { events := [], sends := [.data_reply], closed := false }
    | .complete, some s =>
      { events := [status_event ep fi s], sends := [], closed := true }
    | .complete, none => { events := [], sends := [], closed := true }
    | .generating, some s =>
      { events := [status_event ep fi s], sends := [], closed := false }
    | .generating, none => { events := [], sends := [], closed := false }
    | .no_match, _ => { events := [], sends := [], closed := false }
  if r.type == .hash then base
  else
    { base with events := base.events ++
        (match r.data with
         | some o => [data_event ep fi o.data]
         | none => []) }

/-- The queued-path frame loop with the per-`fn_index` last-status record
threaded explicitly.  The record (`last_status`, client.ts:190) is only
ever read (client.ts:391) — no statement in the source assigns to it — so
the recursion passes it on unchanged.  Processing stops once a frame
closes the socket. -/
def ws_run_from (last_status : Option String) (frames : List Frame)
    (ep : String) (fi : Nat) : List Event :=
  match frames with
  | [] => []
  | fr :: rest =>
    let out := onmessage_step fr last_status ep fi
    out.events ++ (if out.closed then [] else ws_run_from last_status rest ep fi)

/-- The queued-path frame loop from a fresh client: the record starts as
`{}` (client.ts:190), so every lookup yields `undefined`. -/
def ws_run (frames : List Frame) (ep : String) (fi : Nat) : List Event :=
  ws_run_from none frames ep fi

/-! ## Transport decision -/

/-- A per-endpoint dependency record.  Its `queue` field is tri-state:
`some true` / `some false` / `none` for JSON `null` (the server emits
`null` when no override is set; the `Config` type itself lives in
`types.ts`, outside this file's source). -/
structure Dependency where
  queue : Option Bool
deriving DecidableEq

/-- The parts of the resolved configuration the transport decision reads. -/
structure Config where
  enable_queue : Bool
  dependencies : List Dependency
deriving DecidableEq

/-- `skip_queue(id, config)` (client.ts:801-807):
`!(config?.dependencies?.[id]?.queue === null ? config.enable_queue
: config?.dependencies?.[id]?.queue) || false`.  A missing dependency
record reads as `undefined`, which is not `=== null` and is falsy, so the
negation yields `true`. -/
def skip_queue (id : Nat) (config : Config) : Bool :=
  !(match config.dependencies[id]? with
    | some dep =>
      match dep.queue with
      | none => config.enable_queue
      | some b => b
    | none => false)

/-- The two transport paths of `submit`. -/
inductive Transport where
  | skip
  | queued
deriving DecidableEq

/-- The dispatch in `submit` (client.ts:299, 356): the skip-queue branch
when `skip_queue` holds, the queued WebSocket branch otherwise. -/
def decide_transport (fn_index : Nat) (config : Config) : Transport :=
  if skip_queue fn_index config then .skip else .queued

/-! ## Listener registry

`listener_map` is declared once per client (client.ts:194), outside
`submit`; the `on`, `off` and `fire_event` closures of every submission
mutate and read this one shared map, which is keyed by event kind only. -/

/-- The client's listener map: per event kind, the ordered list of
registered listeners (listeners are identified by a numeric id, standing
for JavaScript function identity). -/
structure ListenerMapM where
  status_listeners : List Nat
  data_listeners : List Nat
deriving DecidableEq

def lm_empty : ListenerMapM := { status_listeners := [], data_listeners := [] }

/-- `listener_map[eventType] || []`. -/
def lm_get (m : ListenerMapM) (kind : String) : List Nat :=
  if kind == "status" then m.status_listeners
  else if kind == "data" then m.data_listeners
  else []

def lm_put (m : ListenerMapM) (kind : String) (ls : List Nat) : ListenerMapM :=
  if kind == "status" then { m with status_listeners := ls }
  else if kind == "data" then { m with data_listeners := ls }
  else m

/-- `on(eventType, listener)` (client.ts:448-458): append to the kind's
list in the shared map. -/
def lm_on (m : ListenerMapM) (kind : String) (l : Nat) : ListenerMapM :=
  lm_put m kind (lm_get m kind ++ [l])

/-- `off(eventType, listener)` (client.ts:460-470): remove by identity. -/
def lm_off (m : ListenerMapM) (kind : String) (l : Nat) : ListenerMapM :=
  lm_put m kind ((lm_get m kind).filter (fun x => x ≠ l))

/-- `fire_event(event)` (client.ts:442-446): deliver the event to every
listener registered under the event's kind — the map is not keyed by
endpoint or `fn_index`, and the dispatch does not inspect those fields. -/
def lm_fire (m : ListenerMapM) (e : Event) : List (Nat × Event) :=
  (lm_get m e.type).map (fun l => (l, e))

/-! ## Skip-queue path and `cancel`

The skip-queue branch of `submit` (client.ts:299-355) fires a pending
status, then fires completion or error events whenever its `post_data`
continuation resolves; `cancel` (client.ts:472-489) fires a synthetic
complete status, best-effort POSTs a reset, and closes the socket — it
neither unregisters listeners nor cancels the pending continuation.  We
model the observable per-submission event trace over the order in which
these asynchronous continuations run. -/

/-- Asynchronous occurrences on a skip-queue submission, in the order the
single-threaded scheduler runs them. -/
inductive SkipAct where
  | http_response (status_code : Nat) (output : FrameOutput)
  | conn_error (message : String)
  | do_cancel
deriving DecidableEq

/-- The synthetic terminal status fired by `cancel()` (client.ts:473-479). -/
def cancel_event (ep : String) (fi : Nat) : Event :=
  { type := "status", endpoint := ep, fn_index := fi, status := some "complete",
    queue := some false, message := none, eta := none, size := none,
    position := none, progress := none, data := none }

/-- Events fired when one skip-queue occurrence runs: an HTTP 200 fires a
complete status then a data event (client.ts:318-334); any other status
fires an error status carrying the server message (client.ts:335-344); a
transport failure fires an error status with the thrown message
(client.ts:346-355); `cancel` fires its synthetic complete status. -/
def skip_act_events (ep : String) (fi : Nat) : SkipAct → List Event
  | .http_response status_code output =>
    if status_code == 200 then
      [{ type := "status", endpoint := ep, fn_index := fi,
         status := some "complete", queue := some false, message := none,
         eta := output.average_duration, size := none, position := none,
         progress := none, data := none },
       data_event ep fi output.data]
    else
      [{ type := "status", endpoint := ep, fn_index := fi,
         status := some "error", queue := some false, message := output.error,
         eta := none, size := none, position := none, progress := none,
         data := none }]
  | .conn_error m =>
    [{ type := "status", endpoint := ep, fn_index := fi, status := some "error",
       queue := some false, message := some m, eta := none, size := none,
       position := none, progress := none, data := none }]
  | .do_cancel => [cancel_event ep fi]

/-- The initial pending status of the skip-queue branch (client.ts:300-306). -/
def skip_pending_event (ep : String) (fi : Nat) : Event :=
  { type := "status", endpoint := ep, fn_index := fi, status := some "pending",
    queue := some false, message := none, eta := none, size := none,
    position := none, progress := none, data := none }

/-- The full event trace of a skip-queue submission: the immediate pending
status followed by the events of each occurrence in scheduler order.
Nothing in the source gates an occurrence's events on an earlier
`cancel` — listeners stay registered and the `post_data` continuation is
never cancelled. -/
def skip_run (ep : String) (fi : Nat) (acts : List SkipAct) : List Event :=
  skip_pending_event ep fi :: acts.flatMap (skip_act_events ep fi)

/-! ## Schema normalization (`view_api`, client.ts:498-637) -/

/-- The inner `type` value of a raw parameter descriptor, as inspected by
`get_type` (client.ts:562-587): a JSON-schema type string, an object with
a truthy `oneOf`, an object whose `items` has truthy `prefixItems`, or
anything else. -/
inductive RawInner where
  | prim (s : String)
  | one_of_obj
  | items_tuple
  | other_inner
deriving DecidableEq

/-- The `type` record of a raw parameter descriptor `{type, description}`,
together with the outer `items.type` used by the `string[]` check
(`type?.items?.type === "string"`, client.ts:577). -/
structure RawTypeBox where
  type : RawInner
  description : String
  items_type : Option String
deriving DecidableEq

/-- The long file-record type string returned for `oneOf`-typed
declarations (client.ts:583). -/
def FILE_RECORD_TYPE : String :=
  "Record<\x7b name: string; data: string; size?: number; is_file?: boolean; orig_name?: string\x7d> | \x7b name: string; data: string; size?: number; is_file?: boolean; orig_name?: string\x7d"

/-- `get_type(type, component)` (client.ts:562-587): the switch returns for
the three primitive declarations; otherwise the if-chain checks the
free-text description, the array-of-strings declaration, the Image
component, the `oneOf` union and the tuple (`prefixItems`) declaration, in
that order; anything else falls off the end (`undefined`). -/
def get_type (type : RawTypeBox) (component : String) : Option String :=
  match type.type with
  | .prim "string" => some "string"
  | .prim "boolean" => some "boolean"
  | .prim "number" => some "number"
  | _ =>
    if type.description == "any valid value" ||
        type.description == "any valid json" then
      some "any"
    else if type.type == .prim "array" && type.items_type == some "string" then
      some "string[]"
    else if component == "Image" then
      some "string"
    else if type.type == .one_of_obj then
      some FILE_RECORD_TYPE
    else if type.type == .items_tuple then
      some ""
    else
      none

/-- `get_description(type, component)` (client.ts:589-601): the first
`Gallery` branch is an empty block, so a Gallery component falls off the
end (`undefined`) and the second, `"Array of files"`, branch is dead;
`oneOf` declarations get the fixed union description; everything else the
raw description. -/
def get_description (type : RawTypeBox) (component : String) : Option String :=
  if component == "Gallery" then none
  else if type.type == .one_of_obj then some "Array of files or single file"
  else some type.description

/-- A raw parameter descriptor. -/
structure ApiParameter where
  label : String
  component : String
  type : RawTypeBox
deriving DecidableEq

/-- A normalized parameter descriptor. -/
structure JsParameter where
  label : String
  component : String
  type : Option String
  description : Option String
deriving DecidableEq

/-- A raw endpoint schema entry.  `transform_api_info` reads only
`parameters` (client.ts:616-632) — `returns` of the normalized entry is
also computed from `parameters`. -/
structure EndpointDetail where
  parameters : List ApiParameter
  returns : List ApiParameter
deriving DecidableEq

/-- A normalized endpoint schema entry. -/
structure JsEndpointDetail where
  parameters : List JsParameter
  returns : List JsParameter
deriving DecidableEq

/-- The raw schema document: JavaScript objects keyed by strings, modelled
as ordered association lists (JS object keys are strings; a numeric index
used as a key is coerced to its decimal string). -/
structure ApiDoc where
  named_endpoints : List (String × EndpointDetail)
  unnamed_endpoints : List (String × EndpointDetail)
deriving DecidableEq

/-- The normalized schema document. -/
structure JsApiDoc where
  named_endpoints : List (String × JsEndpointDetail)
  unnamed_endpoints : List (String × JsEndpointDetail)
deriving DecidableEq

/-- Property lookup on a string-keyed object. -/
def jlookup (m : List (String × α)) (k : String) : Option α :=
  match m with
  | [] => none
  | (k1, v) :: rest => if k1 == k then some v else jlookup rest k

/-- One endpoint entry of `transform_api_info` (client.ts:611-633): both
`parameters` and `returns` are mapped from the raw entry's `parameters`
list. -/
def transform_endpoint (info : EndpointDetail) : JsEndpointDetail :=
  { parameters := info.parameters.map (fun p =>
      { label := p.label, component := p.component,
        type := get_type p.type p.component,
        description := get_description p.type p.component }),
    returns := info.parameters.map (fun p =>
      { label := p.label, component := p.component,
        type := get_type p.type p.component,
        description := get_description p.type p.component }) }

/-- `view_api` normalization (client.ts:515-524): if the raw document has
a named `/predict` endpoint and no unnamed `0` endpoint, alias slot `0` to
the `/predict` entry (a new own property, appended); then transform every
entry of both maps. -/
def view_api_normalize (api_info : ApiDoc) : JsApiDoc :=
  let aliased : ApiDoc :=
    match jlookup api_info.named_endpoints "/predict",
        jlookup api_info.unnamed_endpoints "0" with
    | some e, none =>
      { api_info with
          unnamed_endpoints := api_info.unnamed_endpoints ++ [("0", e)] }
    | _, _ => api_info
  { named_endpoints :=
      aliased.named_endpoints.map (fun kv => (kv.1, transform_endpoint kv.2)),
    unnamed_endpoints :=
      aliased.unnamed_endpoints.map (fun kv => (kv.1, transform_endpoint kv.2)) }

/-- Endpoint-schema resolution in `submit` (client.ts:275-284): a numeric
endpoint reads `api.unnamed_endpoints[endpoint]` (the number coerced to a
string key), a string endpoint reads `api.named_endpoints[endpoint]`. -/
def resolve_api_info (endpoint : Sum Nat String) (api : JsApiDoc) :
    Option JsEndpointDetail :=
  match endpoint with
  | .inl n => jlookup api.unnamed_endpoints (toString n)
  | .inr s => jlookup api.named_endpoints s

/-! ## Space wake-poll loop (`check_space_status`, client.ts:842-924) -/

/-- The runtime stage reported by the space-status collaborator. -/
inductive SpaceStage where
  | stopped
  | sleeping
  | running
  | running_building
  | building
  | other_stage (s : String)
deriving DecidableEq

/-- The stage's wire string, used for the `detail` field. -/
def stage_str : SpaceStage → String
  | .stopped => "STOPPED"
  | .sleeping => "SLEEPING"
  | .running => "RUNNING"
  | .running_building => "RUNNING_BUILDING"
  | .building => "BUILDING"
  | .other_stage s => s

/-- Outcome of one poll of the space-status endpoint. -/
inductive PollResult where
  | ok (stage : SpaceStage)
  | http_fail
deriving DecidableEq

/-- A space status report passed to the caller's status callback.  (The
`space_error` report additionally carries a discussions-enabled flag
fetched from a collaborator, not modelled here.) -/
structure SpaceStatusMsg where
  status : String
  load_status : String
  message : String
  detail : String
deriving DecidableEq

/-- One iteration of `check_space_status`: the status report passed to the
callback, and `some 1000` when exactly one re-poll is scheduled after the
fixed 1000 ms interval (`setTimeout(..., 1000)`, client.ts:886-888 and
910-912), `none` when polling stops. -/
def space_status_step : PollResult → SpaceStatusMsg × Option Nat
  | .http_fail =>
    ({ status := "error", load_status := "error",
       message := "Could not get space status", detail := "NOT_FOUND" }, none)
  | .ok .stopped =>
    ({ status := "sleeping", load_status := "pending",
       message := "Space is asleep. Waking it up...",
       detail := stage_str .stopped }, some 1000)
  | .ok .sleeping =>
    ({ status := "sleeping", load_status := "pending",
       message := "Space is asleep. Waking it up...",
       detail := stage_str .sleeping }, some 1000)
  | .ok .running =>
    ({ status := "running", load_status := "complete", message := "",
       detail := stage_str .running }, none)
  | .ok .running_building =>
    ({ status := "running", load_status := "complete", message := "",
       detail := stage_str .running_building }, none)
  | .ok .building =>
    ({ status := "building", load_status := "pending",
       message := "Space is building...",
       detail := stage_str .building }, some 1000)
  | .ok (.other_stage s) =>
    ({ status := "space_error", load_status := "error",
       message := "This space is experiencing an issue.", detail := s }, none)

/-- The wake-poll loop over a sequence of poll outcomes: each iteration
reports one status; the recursion continues exactly when a re-poll was
scheduled.  The loop carries no retry counter — no iteration stops because
of how many polls came before it. -/
def check_space_status_run : List PollResult → List SpaceStatusMsg
  | [] => []
  | r :: rest =>
    let (msg, repoll) := space_status_step r
    msg :: (match repoll with
    | some _ => check_space_status_run rest
    | none => [])

/-- What the wake-poll reports to the caller: a status-callback invocation
or the one-shot client resolution. -/
inductive CallbackEv where
  | status_cb (m : SpaceStatusMsg)
  | resolved
deriving DecidableEq

def is_resolved : CallbackEv → Bool
  | .resolved => true
  | .status_cb _ => false

def cb_load_status : CallbackEv → Option String
  | .status_cb m => some m.load_status
  | .resolved => none

/-- `handle_space_sucess` (client.ts:212-230), the callback handed to
`check_space_status`: forward every status to the caller's status
callback; on a `running` status re-attempt config and schema resolution
(its success modelled by `cfg_ok`) and resolve the client, or report a
load error. -/
def handle_space_sucess (cfg_ok : Bool) (m : SpaceStatusMsg) : List CallbackEv :=
  [.status_cb m] ++
    (if m.status == "running" then
      if cfg_ok then [.resolved]
      else
        [.status_cb
          { status := "error", load_status := "error",
            message := "Could not load this space.", detail := "NOT_FOUND" }]
    else [])

/-- The composed wake-poll state machine: every poll iteration's status
report flows through `handle_space_sucess`. -/
def wake_poll_run (cfg_ok : Bool) (rs : List PollResult) : List CallbackEv :=
  (check_space_status_run rs).flatMap (handle_space_sucess cfg_ok)

/-! ## Structural induction for payload trees -/

/-- Induction over payload trees with element-wise hypotheses for arrays
and objects. -/
theorem pvalue_ind (motive : PValue → Prop)
    (harr : ∀ xs, (∀ v, v ∈ xs → motive v) → motive (.arr xs))
    (hbuffer : ∀ bs, motive (.buffer bs))
    (hblob : ∀ bs, motive (.blob bs))
    (hobj : ∀ fs, (∀ k v, (k, v) ∈ fs → motive v) → motive (.obj fs))
    (hstr : ∀ s, motive (.str s))
    (hnum : ∀ n, motive (.num n))
    (hbool : ∀ b, motive (.boolean b))
    (hnull : motive .null) :
    ∀ p, motive p := by
  have H : ∀ n p, sizeOf p ≤ n → motive p := by
    intro n
    induction n with
    | zero =>
      intro p hp
      cases p <;> simp at hp
    | succ n ih =>
      intro p hp
      cases p with
      | arr xs =>
        refine harr xs (fun v hv => ih v ?_)
        have h1 := List.sizeOf_lt_of_mem hv
        simp at hp
        omega
      | obj fs =>
        refine hobj fs (fun k v hv => ih v ?_)
        have h1 := List.sizeOf_lt_of_mem hv
        have h2 : sizeOf v < sizeOf (k, v) := by simp
        simp at hp
        omega
      | buffer bs => exact hbuffer bs
      | blob bs => exact hblob bs
      | str s => exact hstr s
      | num i => exact hnum i
      | boolean b => exact hbool b
      | null => exact hnull
  exact fun p => H (sizeOf p) p (le_refl _)

/-! ## Emptiness of the walk on binary-free trees (claim C5) -/

theorem walk_list_eq_nil (xs : List PValue)
    (ih : ∀ v ∈ xs, ∀ t path root api, no_binary v = true →
      walk_and_store_blobs v t path root api = [])
    (h : no_binary_list xs = true) :
    ∀ i t path root api, walk_list xs i t path root api = [] := by
  induction xs with
  | nil => intro i t path root api; simp [walk_list]
  | cons v rest ihr =>
    intro i t path root api
    simp only [no_binary_list, Bool.and_eq_true] at h
    simp only [walk_list, List.append_eq_nil]
    exact ⟨ih v (by simp) _ _ _ _ h.1,
      ihr (fun v hv => ih v (by simp [hv])) h.2 _ _ _ _ _⟩

theorem walk_fields_eq_nil (fs : List (String × PValue))
    (ih : ∀ k v, (k, v) ∈ fs → ∀ t path root api, no_binary v = true →
      walk_and_store_blobs v t path root api = [])
    (h : no_binary_fields fs = true) :
    ∀ path api, walk_fields fs path api = [] := by
  induction fs with
  | nil => intro path api; simp [walk_fields]
  | cons kv rest ihr =>
    intro path api
    obtain ⟨k, v⟩ := kv
    simp only [no_binary_fields, Bool.and_eq_true] at h
    simp only [walk_fields, List.append_eq_nil]
    exact ⟨ih k v (by simp) _ _ _ _ h.1,
      ihr (fun k v hv => ih k v (by simp [hv])) h.2 _ _⟩

/-- A payload tree with no binary leaf yields no blob references. -/
theorem walk_eq_nil_of_no_binary (p : PValue) :
    ∀ t path root api, no_binary p = true →
      walk_and_store_blobs p t path root api = [] := by
  induction p using pvalue_ind with
  | harr xs ih =>
    intro t path root api h
    simp only [no_binary] at h
    simp only [walk_and_store_blobs]
    exact walk_list_eq_nil xs ih h 0 t path root api
  | hobj fs ih =>
    intro t path root api h
    simp only [no_binary] at h
    simp only [walk_and_store_blobs]
    exact walk_fields_eq_nil fs ih h path api
  | hbuffer bs => intro t path root api h; simp [no_binary] at h
  | hblob bs => intro t path root api h; simp [no_binary] at h
  | hstr s => intro t path root api h; simp [walk_and_store_blobs]
  | hnum n => intro t path root api h; simp [walk_and_store_blobs]
  | hbool b => intro t path root api h; simp [walk_and_store_blobs]
  | hnull => intro t path root api h; simp [walk_and_store_blobs]

/-- Claim C5: for every payload tree containing no binary leaf (no Buffer
and no Blob anywhere), the blob-extraction walk returns an empty reference
sequence, and the payload after the reinsertion phase of `handle_blob`
equals the original payload (round-trip identity). -/
theorem no_binary_roundtrip_spec (data : List PValue)
    (api : List (Option String)) (upload : List Nat → String)
    (h : no_binary_list data = true) :
    walk_and_store_blobs (.arr data) none [] true api = []
    ∧ handle_blob upload data api = .arr data := by
  have hw : walk_and_store_blobs (.arr data) none [] true api = [] :=
    walk_eq_nil_of_no_binary (.arr data) none [] true api (by simpa [no_binary])
  refine ⟨hw, ?_⟩
  simp [handle_blob, hw]

/-- Witness for C5 at a concrete binary-free payload. -/
theorem no_binary_roundtrip_spec_witness :
    no_binary_list [.obj [("a", .str "x"), ("b", .arr [.num 1, .null])],
        .boolean true] = true
    ∧ (walk_and_store_blobs
        (.arr [.obj [("a", .str "x"), ("b", .arr [.num 1, .null])],
          .boolean true]) none [] true [some "Image"] = []
      ∧ handle_blob (fun _ => "file0")
          [.obj [("a", .str "x"), ("b", .arr [.num 1, .null])], .boolean true]
          [some "Image"]
        = .arr [.obj [("a", .str "x"), ("b", .arr [.num 1, .null])],
            .boolean true]) :=
  ⟨by decide,
    no_binary_roundtrip_spec
      [.obj [("a", .str "x"), ("b", .arr [.num 1, .null])], .boolean true]
      [some "Image"] (fun _ => "file0") (by decide)⟩

/-! ## Reference count and path correctness of the walk (claim C6) -/

theorem walk_list_length (xs : List PValue)
    (ih : ∀ v ∈ xs, ∀ t path root api,
      (walk_and_store_blobs v t path root api).length = count_binary v) :
    ∀ i t path root api,
      (walk_list xs i t path root api).length = count_binary_list xs := by
  induction xs with
  | nil => intro i t path root api; simp [walk_list, count_binary_list]
  | cons v rest ihr =>
    intro i t path root api
    simp only [walk_list, count_binary_list, List.length_append]
    rw [ih v (by simp), ihr (fun v hv => ih v (by simp [hv]))]

theorem walk_fields_length (fs : List (String × PValue))
    (ih : ∀ k v, (k, v) ∈ fs → ∀ t path root api,
      (walk_and_store_blobs v t path root api).length = count_binary v) :
    ∀ path api,
      (walk_fields fs path api).length = count_binary_fields fs := by
  induction fs with
  | nil => intro path api; simp [walk_fields, count_binary_fields]
  | cons kv rest ihr =>
    intro path api
    obtain ⟨k, v⟩ := kv
    simp only [walk_fields, count_binary_fields, List.length_append]
    rw [ih k v (by simp), ihr (fun k v hv => ih k v (by simp [hv]))]

/-- The walk emits exactly one reference per binary leaf. -/
theorem walk_length_eq_count (p : PValue) :
    ∀ t path root api,
      (walk_and_store_blobs p t path root api).length = count_binary p := by
  induction p using pvalue_ind with
  | harr xs ih =>
    intro t path root api
    simp only [walk_and_store_blobs, count_binary]
    exact walk_list_length xs ih 0 t path root api
  | hobj fs ih =>
    intro t path root api
    simp only [walk_and_store_blobs, count_binary]
    exact walk_fields_length fs ih path api
  | hbuffer bs => intro t path root api; simp [walk_and_store_blobs, count_binary]
  | hblob bs =>
    intro t path root api
    by_cases h : t == some "Image" <;>
      simp [walk_and_store_blobs, count_binary, h]
  | hstr s => intro t path root api; simp [walk_and_store_blobs, count_binary]
  | hnum n => intro t path root api; simp [walk_and_store_blobs, count_binary]
  | hbool b => intro t path root api; simp [walk_and_store_blobs, count_binary]
  | hnull => intro t path root api; simp [walk_and_store_blobs, count_binary]

theorem assoc_find_mem_keys {fs : List (String × PValue)} {k : String}
    {v : PValue} (h : assoc_find fs k = some v) : k ∈ fs.map Prod.fst := by
  induction fs with
  | nil => simp [assoc_find] at h
  | cons kv rest ihr =>
    obtain ⟨k1, v1⟩ := kv
    simp only [assoc_find] at h
    by_cases hk : k1 == k
    · simp only [List.map_cons, List.mem_cons]
      exact Or.inl (by simpa [eq_comm] using (beq_iff_eq.mp hk))
    · simp only [hk, Bool.false_eq_true, if_false] at h
      simp [ihr h]

theorem walk_list_paths (xs : List PValue)
    (ih : ∀ v ∈ xs, ∀ t pfx root api, pvalue_wf v = true →
      ∀ r ∈ walk_and_store_blobs v t pfx root api,
        ∃ q, r.path = pfx ++ q ∧
          ∃ u, lookup v q = some u ∧ ref_matches r u = true)
    (hwf : pvalue_wf_list xs = true) :
    ∀ i t pfx root api, ∀ r ∈ walk_list xs i t pfx root api,
      ∃ j v q, xs[j]? = some v ∧ r.path = pfx ++ (Key.idx (i + j) :: q)
        ∧ ∃ u, lookup v q = some u ∧ ref_matches r u = true := by
  induction xs with
  | nil => intro i t pfx root api r hr; simp [walk_list] at hr
  | cons v rest ihr =>
    intro i t pfx root api r hr
    simp only [pvalue_wf_list, Bool.and_eq_true] at hwf
    simp only [walk_list, List.mem_append] at hr
    rcases hr with hl | hrr
    · obtain ⟨q, hpath, u, hlook, hm⟩ :=
        ih v (by simp) _ _ _ _ hwf.1 r hl
      refine ⟨0, v, q, by simp, ?_, u, hlook, hm⟩
      rw [hpath]
      simp
    · obtain ⟨j, v1, q, hj, hpath, u, hlook, hm⟩ :=
        ihr (fun v hv => ih v (by simp [hv])) hwf.2 (i + 1) t pfx root api r hrr
      refine ⟨j + 1, v1, q, by simpa using hj, ?_, u, hlook, hm⟩
      rw [hpath]
      have harith : i + 1 + j = i + (j + 1) := by omega
      rw [harith]

theorem walk_fields_paths (fs : List (String × PValue))
    (ih : ∀ k v, (k, v) ∈ fs → ∀ t pfx root api, pvalue_wf v = true →
      ∀ r ∈ walk_and_store_blobs v t pfx root api,
        ∃ q, r.path = pfx ++ q ∧
          ∃ u, lookup v q = some u ∧ ref_matches r u = true)
    (hdk : keys_distinct (fs.map Prod.fst) = true)
    (hwf : pvalue_wf_fields fs = true) :
    ∀ pfx api, ∀ r ∈ walk_fields fs pfx api,
      ∃ k v q, assoc_find fs k = some v ∧ r.path = pfx ++ (Key.field k :: q)
        ∧ ∃ u, lookup v q = some u ∧ ref_matches r u = true := by
  induction fs with
  | nil => intro pfx api r hr; simp [walk_fields] at hr
  | cons kv rest ihr =>
    intro pfx api r hr
    obtain ⟨k1, v1⟩ := kv
    simp only [pvalue_wf_fields, Bool.and_eq_true] at hwf
    simp only [List.map_cons, keys_distinct, Bool.and_eq_true,
      Bool.not_eq_true'] at hdk
    simp only [walk_fields, List.mem_append] at hr
    rcases hr with hl | hrr
    · obtain ⟨q, hpath, u, hlook, hm⟩ :=
        ih k1 v1 (by simp) _ _ _ _ hwf.1 r hl
      refine ⟨k1, v1, q, by simp [assoc_find], ?_, u, hlook, hm⟩
      rw [hpath]
      simp
    · obtain ⟨k, v, q, hfind, hpath, u, hlook, hm⟩ :=
        ihr (fun k v hv => ih k v (by simp [hv])) hdk.2 hwf.2 pfx api r hrr
      have hnotmem : k1 ∉ rest.map Prod.fst := by simpa using hdk.1
      have hkne : k1 ≠ k := fun hEq => hnotmem (hEq ▸ assoc_find_mem_keys hfind)
      refine ⟨k, v, q, ?_, hpath, u, hlook, hm⟩
      simp [assoc_find, hkne, hfind]

/-- Every reference the walk emits records the path of the binary leaf
that produced it, relative to the initial path prefix. -/
theorem walk_paths (p : PValue) :
    ∀ t pfx root api, pvalue_wf p = true →
      ∀ r ∈ walk_and_store_blobs p t pfx root api,
        ∃ q, r.path = pfx ++ q ∧
          ∃ u, lookup p q = some u ∧ ref_matches r u = true := by
  induction p using pvalue_ind with
  | harr xs ih =>
    intro t pfx root api hwf r hr
    simp only [pvalue_wf] at hwf
    simp only [walk_and_store_blobs] at hr
    obtain ⟨j, v, q, hj, hpath, u, hlook, hm⟩ :=
      walk_list_paths xs ih hwf 0 t pfx root api r hr
    refine ⟨Key.idx j :: q, by simpa using hpath, u, ?_, hm⟩
    simp [lookup, hj, hlook]
  | hobj fs ih =>
    intro t pfx root api hwf r hr
    simp only [pvalue_wf, Bool.and_eq_true] at hwf
    simp only [walk_and_store_blobs] at hr
    obtain ⟨k, v, q, hfind, hpath, u, hlook, hm⟩ :=
      walk_fields_paths fs ih hwf.1 hwf.2 pfx api r hr
    refine ⟨Key.field k :: q, hpath, u, ?_, hm⟩
    simp [lookup, hfind, hlook]
  | hbuffer bs =>
    intro t pfx root api hwf r hr
    simp only [walk_and_store_blobs, List.mem_singleton] at hr
    subst hr
    refine ⟨[], by simp, .buffer bs, by simp [lookup], ?_⟩
    by_cases h : t == some "Image" <;> simp [ref_matches, h]
  | hblob bs =>
    intro t pfx root api hwf r hr
    by_cases h : t == some "Image" <;>
      simp only [walk_and_store_blobs, h, if_true, if_false,
        Bool.false_eq_true, List.mem_singleton] at hr <;>
      subst hr
    · exact ⟨[], by simp, .blob bs, by simp [lookup], by simp [ref_matches]⟩
    · exact ⟨[], by simp, .blob bs, by simp [lookup], by simp [ref_matches]⟩
  | hstr s => intro t pfx root api hwf r hr; simp [walk_and_store_blobs] at hr
  | hnum n => intro t pfx root api hwf r hr; simp [walk_and_store_blobs] at hr
  | hbool b => intro t pfx root api hwf r hr; simp [walk_and_store_blobs] at hr
  | hnull => intro t pfx root api hwf r hr; simp [walk_and_store_blobs] at hr

/-- Claim C6: for every (well-formed) payload tree, the number of
references emitted by the blob-extraction walk equals the number of binary
leaves reachable by the walk, and for each emitted reference, indexing the
original tree successively by the components of its recorded path yields
exactly that binary leaf (a binary leaf whose bytes the reference carries,
raw or base64-inlined).  Well-formedness requires each object node to have
distinct keys, as every JavaScript object does. -/
theorem walk_refs_count_and_paths_spec (p : PValue)
    (api : List (Option String)) (h : pvalue_wf p = true) :
    (walk_and_store_blobs p none [] true api).length = count_binary p
    ∧ (walk_and_store_blobs p none [] true api).all (path_ok p) = true := by
  refine ⟨walk_length_eq_count p none [] true api, ?_⟩
  rw [List.all_eq_true]
  intro r hr
  obtain ⟨q, hpath, u, hlook, hm⟩ := walk_paths p none [] true api h r hr
  simp only [List.nil_append] at hpath
  simp [path_ok, hpath, hlook, hm]

/-- Witness for C6 at a concrete payload with three binary leaves. -/
theorem walk_refs_count_and_paths_spec_witness :
    pvalue_wf (.arr [.str "a", .buffer [1, 2, 3],
        .obj [("x", .blob [7]), ("y", .num 2)], .arr [.buffer []]]) = true
    ∧ ((walk_and_store_blobs (.arr [.str "a", .buffer [1, 2, 3],
          .obj [("x", .blob [7]), ("y", .num 2)], .arr [.buffer []]])
          none [] true [none, some "Image"]).length
        = count_binary (.arr [.str "a", .buffer [1, 2, 3],
            .obj [("x", .blob [7]), ("y", .num 2)], .arr [.buffer []]])
      ∧ (walk_and_store_blobs (.arr [.str "a", .buffer [1, 2, 3],
          .obj [("x", .blob [7]), ("y", .num 2)], .arr [.buffer []]])
          none [] true [none, some "Image"]).all
          (path_ok (.arr [.str "a", .buffer [1, 2, 3],
            .obj [("x", .blob [7]), ("y", .num 2)], .arr [.buffer []]]))
        = true) :=
  ⟨by decide,
    walk_refs_count_and_paths_spec
      (.arr [.str "a", .buffer [1, 2, 3],
        .obj [("x", .blob [7]), ("y", .num 2)], .arr [.buffer []]])
      [none, some "Image"] (by decide)⟩

/-! ## Claim C1: transport decision -/

/-- Claim C1: for every submission, the transport decision is skip-queue
exactly when the endpoint's per-dependency `queue` field is explicitly
`false`, or when it is unset (JSON `null`) and the global `enable_queue`
is false; otherwise the queued WebSocket path is taken.  In particular,
for an endpoint whose dependency record has no queue override, submit
with `enable_queue = true` always takes the queued path. -/
theorem transport_decision_spec (cfg : Config) (id : Nat) (d : Dependency)
    (h : cfg.dependencies[id]? = some d) :
    (decide_transport id cfg = .skip ↔
      (d.queue = some false ∨ (d.queue = none ∧ cfg.enable_queue = false)))
    ∧ (d.queue = none → cfg.enable_queue = true →
        decide_transport id cfg = .queued) := by
  rcases d with ⟨q⟩
  cases q with
  | none =>
    cases he : cfg.enable_queue <;>
      simp [decide_transport, skip_queue, h, he]
  | some b => cases b <;> simp [decide_transport, skip_queue, h]

/-- Witness for C1: no override and `enable_queue = true` takes the
queued path. -/
theorem transport_decision_spec_witness :
    decide_transport 0
        { enable_queue := true, dependencies := [{ queue := none }] }
      = Transport.queued :=
  (transport_decision_spec
      { enable_queue := true, dependencies := [{ queue := none }] } 0
      { queue := none } rfl).2 rfl rfl

/-! ## Claim C2: estimation frames and the last-status record -/

/-- A successful `process_generating` frame. -/
def gen_frame : Frame :=
  { msg := "process_generating", success := true,
    output := { error := none, data := some "partial", average_duration := none },
    queue_size := none, rank := none, rank_eta := none, progress_data := none,
    average_duration := some 7 }

/-- An `estimation` frame. -/
def est_frame : Frame :=
  { msg := "estimation", success := true,
    output := { error := none, data := none, average_duration := none },
    queue_size := some 3, rank := some 1, rank_eta := some 10,
    progress_data := none, average_duration := none }

/-- Claim C2, settled against the code as a bug witness.  The first
conjunct shows `handle_message` does preserve a last status of
`generating` for an `estimation` frame (`last_status || "pending"`,
client.ts:954) — the claimed behavior is implemented at the frame level.
The second conjunct evaluates the full queued-path pipeline on the frames
`process_generating` then `estimation`: because the per-`fn_index`
`last_status` record (client.ts:190) is only ever read (client.ts:391)
and never assigned, the estimation lookup yields `undefined` and the
emitted status event carries `pending`, not the preserved `generating`
the claim (and the spec) require. -/
theorem estimation_overwrites_generating_bug :
    ((handle_message est_frame (some "generating")).status.map StatusMsg.status
      = some "generating")
    ∧ ((ws_run [gen_frame, est_frame] "/predict" 0).map Event.status
      = [some "generating", none, some "pending"]) := by
  decide

/-! ## Claim C3: failed `process_completed` frames -/

/-- Claim C3: for every queued submission, a `process_completed` frame
whose `success` field is false causes exactly one status event, with
`status = error` and message equal to the frame's `output.error` field;
no data event is emitted for that frame, no reply is sent, and the socket
is then closed. -/
theorem process_completed_failure_spec (fr : Frame) (last : Option String)
    (ep : String) (fi : Nat)
    (hmsg : fr.msg = "process_completed") (hsucc : fr.success = false) :
    onmessage_step fr last ep fi =
      { events :=
          [{ type := "status", endpoint := ep, fn_index := fi,
             status := some "error", queue := some true,
             message := fr.output.error, eta := fr.output.average_duration,
             size := none, position := none, progress := fr.progress_data,
             data := none }],
        sends := [], closed := true } := by
  simp [onmessage_step, handle_message, hmsg, hsucc, status_event]

/-- A failed `process_completed` frame with a server error message. -/
def failed_complete_frame : Frame :=
  { msg := "process_completed", success := false,
    output := { error := some "boom", data := some "x", average_duration := some 4 },
    queue_size := none, rank := none, rank_eta := none,
    progress_data := some 2, average_duration := none }

/-- Witness for C3 at a concrete failed frame. -/
theorem process_completed_failure_spec_witness :
    onmessage_step failed_complete_frame none "/predict" 2 =
      { events :=
          [{ type := "status", endpoint := "/predict", fn_index := 2,
             status := some "error", queue := some true,
             message := some "boom", eta := some 4,
             size := none, position := none, progress := some 2,
             data := none }],
        sends := [], closed := true } :=
  process_completed_failure_spec failed_complete_frame none "/predict" 2 rfl rfl

/-! ## Claim C4: events after `cancel()` -/

/-- Counterexample to C4 as stated: on a skip-queue submission whose
`post_data` continuation resolves after `cancel()` already ran, events
continue to be delivered after the cancel event — the trace
`[pending, cancel-complete]` is followed by the HTTP completion and data
events, because `cancel` neither unregisters listeners nor cancels the
pending continuation. -/
theorem cancel_suppresses_no_events_counterexample :
    (skip_run "/predict" 0 [.do_cancel,
      .http_response 200
        { error := none, data := some "out", average_duration := some 5 }]).drop 2
      ≠ [] := by
  decide

/-- Claim C4 as amended: `cancel()` makes the caller's status listeners
observe exactly one synthetic `status = complete, queue = false` event,
but it does not silence the submission — every occurrence that runs after
it (a late HTTP response, or frames arriving before the socket closes)
still fires its events to the submission's listeners, unchanged. -/
theorem cancel_event_trace_spec (ep : String) (fi : Nat)
    (acts : List SkipAct) :
    skip_run ep fi (SkipAct.do_cancel :: acts)
      = [skip_pending_event ep fi, cancel_event ep fi]
        ++ acts.flatMap (skip_act_events ep fi) := by
  simp [skip_run, skip_act_events]

/-! ## Claim C7: listener dispatch across submissions -/

/-- A status event as fired for a submission with `fn_index = 0` on
endpoint `/a`. -/
def event_a : Event :=
  { type := "status", endpoint := "/a", fn_index := 0, status := some "pending",
    queue := some true, message := none, eta := none, size := none,
    position := none, progress := none, data := none }

/-- A status event as fired for a different submission with
`fn_index = 1` on endpoint `/b`. -/
def event_b : Event :=
  { type := "status", endpoint := "/b", fn_index := 1, status := some "pending",
    queue := some true, message := none, eta := none, size := none,
    position := none, progress := none, data := none }

/-- Counterexample to C7 as stated: `listener_map` is one shared per-client
map (client.ts:194) and `fire_event` dispatches by event kind only
(client.ts:442-446).  A listener subscribed through submission A's handle
(`on("status", ·)` mutates the shared map) is delivered submission B's
status event, which carries B's endpoint `/b` and `fn_index = 1`. -/
theorem listener_isolation_counterexample :
    (0, event_b) ∈ lm_fire (lm_on lm_empty "status" 0) event_b := by
  decide

/-- Claim C7 as amended: dispatch is keyed by event kind only, on the
client's shared registry.  Every listener registered for a kind — through
any submission's handle — receives every event of that kind, and the
recipient set is independent of the event's endpoint and `fn_index`
fields (listeners must filter on those fields themselves). -/
theorem fire_event_kind_dispatch_spec (m : ListenerMapM) (e e1 : Event)
    (l : Nat) (hk : e.type = e1.type) (hl : l ∈ lm_get m e.type) :
    (l, e) ∈ lm_fire m e ∧ (l, e1) ∈ lm_fire m e1
    ∧ (lm_fire m e).map Prod.fst = (lm_fire m e1).map Prod.fst := by
  refine ⟨?_, ?_, ?_⟩
  · simp only [lm_fire, List.mem_map]
    exact ⟨l, hl, rfl⟩
  · simp only [lm_fire, List.mem_map]
    exact ⟨l, hk ▸ hl, rfl⟩
  · simp [lm_fire, hk]

/-- Witness for the amended C7 at a concrete registry and two events of
the same kind from different submissions. -/
theorem fire_event_kind_dispatch_spec_witness :
    (0, event_a) ∈ lm_fire (lm_on lm_empty "status" 0) event_a
    ∧ (0, event_b) ∈ lm_fire (lm_on lm_empty "status" 0) event_b
    ∧ (lm_fire (lm_on lm_empty "status" 0) event_a).map Prod.fst
      = (lm_fire (lm_on lm_empty "status" 0) event_b).map Prod.fst :=
  fire_event_kind_dispatch_spec (lm_on lm_empty "status" 0) event_a event_b 0
    rfl (by decide)

/-! ## Claim C8: the `/predict` alias for unnamed endpoint 0 -/

theorem jlookup_map {α β : Type} (m : List (String × α)) (f : α → β)
    (k : String) :
    jlookup (m.map (fun kv => (kv.1, f kv.2))) k = (jlookup m k).map f := by
  induction m with
  | nil => simp [jlookup]
  | cons kv rest ihr =>
    by_cases h : kv.1 == k <;> simp [jlookup, h, ihr]

theorem jlookup_append_right {α : Type} (m : List (String × α)) (k : String)
    (v : α) (h : jlookup m k = none) : jlookup (m ++ [(k, v)]) k = some v := by
  induction m with
  | nil => simp [jlookup]
  | cons kv rest ihr =>
    simp only [jlookup, List.cons_append] at h ⊢
    by_cases hk : kv.1 == k
    · simp [hk] at h
    · simp only [hk, Bool.false_eq_true, if_false] at h ⊢
      exact ihr h

/-- Claim C8: if the raw schema document defines a named endpoint at key
`/predict` and no unnamed endpoint at key `0`, then after `view_api`
normalization the unnamed endpoint `0` is the same schema entry as the
named endpoint `/predict`: a submission addressed by numeric index `0`
resolves the same endpoint-schema entry as one addressed by
`"/predict"`. -/
theorem predict_alias_resolution_spec (api : ApiDoc) (e : EndpointDetail)
    (hn : jlookup api.named_endpoints "/predict" = some e)
    (hu : jlookup api.unnamed_endpoints "0" = none) :
    resolve_api_info (.inl 0) (view_api_normalize api)
      = some (transform_endpoint e)
    ∧ resolve_api_info (.inr "/predict") (view_api_normalize api)
      = some (transform_endpoint e) := by
  have h0 : (toString (0 : Nat)) = "0" := rfl
  constructor
  · simp only [resolve_api_info, view_api_normalize, hn, hu, h0]
    rw [jlookup_map, jlookup_append_right _ _ _ hu]
    rfl
  · simp only [resolve_api_info, view_api_normalize, hn, hu]
    rw [jlookup_map, hn]
    rfl

/-- A concrete raw `/predict` schema entry. -/
def predict_entry : EndpointDetail :=
  { parameters :=
      [{ label := "x", component := "Textbox",
         type :=
           { type := .prim "string", description := "a string",
             items_type := none } }],
    returns := [] }

/-- A raw schema document with a named `/predict` endpoint and no unnamed
endpoints. -/
def raw_api_example : ApiDoc :=
  { named_endpoints := [("/predict", predict_entry)],
    unnamed_endpoints := [] }

/-- Witness for C8 at a concrete raw schema document. -/
theorem predict_alias_resolution_spec_witness :
    resolve_api_info (.inl 0) (view_api_normalize raw_api_example)
      = some (transform_endpoint predict_entry)
    ∧ resolve_api_info (.inr "/predict") (view_api_normalize raw_api_example)
      = some (transform_endpoint predict_entry) :=
  predict_alias_resolution_spec raw_api_example predict_entry
    (by decide) (by decide)

/-! ## Claim C9: wake-poll state machine -/

/-- The status report of a BUILDING poll iteration. -/
def building_report : SpaceStatusMsg :=
  { status := "building", load_status := "pending",
    message := "Space is building...", detail := "BUILDING" }

/-- Claim C9: the status-poll sequence BUILDING, BUILDING, RUNNING
invokes the caller's status callback exactly three times, with
load-status values pending, pending, complete in that order, then
resolves the client exactly once; the stages STOPPED, SLEEPING and
BUILDING each schedule exactly one re-poll after the fixed 1000 ms
interval; and there is no retry cutoff — `n` consecutive BUILDING polls
produce `n` building reports and keep re-polling, for every `n`. -/
theorem wake_poll_building_spec :
    ((wake_poll_run true [.ok .building, .ok .building, .ok .running]).filterMap
        cb_load_status = ["pending", "pending", "complete"])
    ∧ ((wake_poll_run true [.ok .building, .ok .building, .ok .running]).filter
        is_resolved).length = 1
    ∧ (∀ n : Nat,
        check_space_status_run (List.replicate n (.ok .building))
          = List.replicate n building_report)
    ∧ (space_status_step (.ok .stopped)).2 = some 1000
    ∧ (space_status_step (.ok .sleeping)).2 = some 1000
    ∧ (space_status_step (.ok .building)).2 = some 1000 := by
  refine ⟨by decide, by decide, ?_, by decide, by decide, by decide⟩
  intro n
  induction n with
  | zero => simp [check_space_status_run]
  | succ n ih =>
    simp [check_space_status_run, List.replicate_succ, space_status_step, ih,
      building_report, stage_str]

/-! ## Claim C10: unrecognized frames -/

/-- Claim C10: for every inbound WebSocket frame whose message tag is not
one of the recognized protocol tags (`send_data`, `send_hash`,
`queue_full`, `estimation`, `progress`, `process_generating`,
`process_completed`, `process_starts`), the message handler emits no
event, sends no reply and does not close the socket. -/
theorem unrecognized_frame_ignored_spec (fr : Frame) (last : Option String)
    (ep : String) (fi : Nat)
    (h : fr.msg ∉ ["send_data", "send_hash", "queue_full", "estimation",
      "progress", "process_generating", "process_completed",
      "process_starts"]) :
    onmessage_step fr last ep fi
      = { events := [], sends := [], closed := false } := by
  simp only [List.mem_cons, List.mem_singleton, not_or] at h
  obtain ⟨h1, h2, h3, h4, h5, h6, h7, h8⟩ := h
  simp [onmessage_step, handle_message, h1, h2, h3, h4, h5, h6, h7, h8]

/-- A frame with an unrecognized message tag. -/
def bogus_frame : Frame :=
  { msg := "heartbeat", success := true,
    output := { error := none, data := none, average_duration := none },
    queue_size := none, rank := none, rank_eta := none, progress_data := none,
    average_duration := none }

/-- Witness for C10 at a concrete unrecognized frame. -/
theorem unrecognized_frame_ignored_spec_witness :
    bogus_frame.msg ∉ ["send_data", "send_hash", "queue_full", "estimation",
      "progress", "process_generating", "process_completed", "process_starts"]
    ∧ onmessage_step bogus_frame none "/predict" 0
      = { events := [], sends := [], closed := false } :=
  ⟨by decide,
    unrecognized_frame_ignored_spec bogus_frame none "/predict" 0 (by decide)⟩

end GradioClient
